import Mathlib

/-
Verification of the YAY parser/serializer (src/python/libyay) against its
natural-language specification.  The Python lexer (lexer.py), parser
(parser.py) and dumper (dumper.py) are shallowly embedded below as
executable Lean functions; loops are translated with an explicit fuel
parameter (the fuel supplied by `loads` is always sufficient because every
loop iteration of the source consumes at least one character or token).
Character classification mirrors Python only on the ASCII range, which is
the range exercised by every theorem below.
-/

namespace Yay

/-- Python `str.isdigit` restricted to ASCII (no claim involves non-ASCII digits). -/
def pyIsDigit (c : Char) : Bool := c.isDigit

/-- Python `str.isalpha` restricted to ASCII. -/
def pyIsAlpha (c : Char) : Bool := c.isAlpha

/-- Python `str.isalnum` restricted to ASCII. -/
def pyIsAlnum (c : Char) : Bool := c.isAlphanum

/-- Whitespace stripped by Python `str.strip` (ASCII fragment). -/
def pyIsSpace (c : Char) : Bool :=
  c == ' ' || c == '\n' || c == '\t' || c == '\r' || c == '\x0b' || c == '\x0c'

/-- A positioned YAY error: `YaySyntaxError(message, line, col)` from errors.py. -/
structure YayErr where
  msg : String
  line : Option Nat
  col : Option Nat
deriving DecidableEq, Repr

/-- Failure outcomes of the embedded pipeline.  `syn` is a raised
`YaySyntaxError`; `nameError` models a Python `NameError` escaping the core
(lexer.py line 619 references the undefined local `block_mode`); `fuelOut`
is the artefact of the fuel translation and is unreachable for the fuel
budgets `loads` supplies. -/
inductive Err where
  | syn (e : YayErr)
  | nameError (name : String)
  | fuelOut
deriving DecidableEq, Repr

/-- Build a positioned syntax error. -/
def synErr (m : String) (l c : Nat) : Err := .syn ⟨m, some l, some c⟩

/-- Python float values as produced by the lexer.  Finite floats keep the
numeral text `float` was applied to; their IEEE-754 value (and `repr`'s
shortest round-trip rendering) is not modelled, and no theorem below
depends on it. -/
inductive FloatVal where
  | inf
  | negInf
  | nan
  | lit (s : String)
deriving DecidableEq, Repr

/-- The YAY value tree (the seven variants of the data model).  Objects are
insertion-ordered association lists, mirroring Python dict semantics. -/
inductive Value where
  | null
  | bool (b : Bool)
  | int (n : Int)
  | float (f : FloatVal)
  | str (s : String)
  | bytes (bs : List Nat)
  | arr (items : List Value)
  | obj (entries : List (String × Value))
deriving Repr

/-- The dynamic payload of a token (`Token.value` in lexer.py). -/
inductive PyObj where
  | none
  | bool (b : Bool)
  | int (n : Int)
  | float (f : FloatVal)
  | str (s : String)
  | bytes (bs : List Nat)
deriving DecidableEq, Repr

/-- A lexer token: `Token(kind, value, line, col)` with 1-based positions. -/
structure Token where
  kind : String
  value : PyObj
  line : Nat
  col : Nat
deriving DecidableEq, Repr

/-- `dict.__setitem__`: replace the value at the first occurrence of the
key, keeping its position, else append (Python insertion-ordered dict). -/
def dictInsert : List (String × Value) → String → Value → List (String × Value)
  | [], k, v => [(k, v)]
  | (k0, v0) :: rest, k, v =>
    if k0 = k then (k0, v) :: rest else (k0, v0) :: dictInsert rest k v

/-- Association-list lookup (Python `d[k]`). -/
def dictLookup : List (String × Value) → String → Option Value
  | [], _ => Option.none
  | (k0, v0) :: rest, k => if k0 = k then some v0 else dictLookup rest k

/-- `Lexer._is_allowed_code_point` (lexer.py lines 53-62). -/
def isAllowedCodePoint (cp : Nat) : Bool :=
  cp == 0x000A
  || (0x0020 ≤ cp && cp ≤ 0x007E)
  || (0x00A0 ≤ cp && cp ≤ 0xD7FF)
  || (0xE000 ≤ cp && cp ≤ 0xFFFD && !(0xFDD0 ≤ cp && cp ≤ 0xFDEF))
  || (0x10000 ≤ cp && cp ≤ 0x10FFFF && cp % 0x10000 < 0xFFFE)

/-- Uppercase hex digit for `f"U+{cp:04X}"` (defined for `n < 16`). -/
def hexDigitUpper (n : Nat) : Char :=
  if n < 10 then Char.ofNat (48 + n) else Char.ofNat (55 + n)

/-- Lowercase hex digit for `f"\\u{ord(ch):04x}"` and `bytes.hex()`
(defined for `n < 16`). -/
def hexDigitLower (n : Nat) : Char :=
  if n < 10 then Char.ofNat (48 + n) else Char.ofNat (87 + n)

/-- Digits of `n` in base 16, most significant first (`[0]` for zero). -/
def hexDigitsOf (n : Nat) : List Nat :=
  if _h : n < 16 then [n]
  else hexDigitsOf (n / 16) ++ [n % 16]
termination_by n
decreasing_by
  exact Nat.div_lt_self (by omega) (by omega)

/-- `f"{cp:04X}"`: uppercase hex padded to four digits. -/
def hex4Upper (n : Nat) : String :=
  let ds := (hexDigitsOf n).map hexDigitUpper
  String.mk (List.replicate (4 - ds.length) '0' ++ ds)

/-- `f"{n:04x}"`: lowercase hex padded to four digits. -/
def hex4Lower (n : Nat) : String :=
  let ds := (hexDigitsOf n).map hexDigitLower
  String.mk (List.replicate (4 - ds.length) '0' ++ ds)

/-- Python `s.split("\n")` over a character list. -/
def splitNL : List Char → List (List Char)
  | [] => [[]]
  | c :: t =>
    if c = '\n' then [] :: splitNL t
    else
      match splitNL t with
      | [] => [[c]]
      | l :: ls => (c :: l) :: ls

/-- Code-point scan of `Lexer._validate_source` (lexer.py lines 71-86). -/
def scanCodePoints : List Char → Nat → Nat → Except YayErr Unit
  | [], _, _ => .ok ()
  | c :: t, line, col =>
    let cp := c.toNat
    if !isAllowedCodePoint cp then
      if cp == 0x09 then .error ⟨"Tab not allowed (use spaces)", some line, some col⟩
      else if 0xD800 ≤ cp && cp ≤ 0xDFFF then .error ⟨"Illegal surrogate", some line, some col⟩
      else .error ⟨"Forbidden code point U+" ++ hex4Upper cp, some line, some col⟩
    else if cp == 0x0A then scanCodePoints t (line + 1) 1
    else scanCodePoints t line (col + 1)

/-- Trailing-space scan of `Lexer._validate_source` (lexer.py lines 88-96). -/
def checkTrailing : List (List Char) → Nat → Nat → Except YayErr Unit
  | [], _, _ => .ok ()
  | l :: ls, i, total =>
    if l.getLast? == some ' ' && !(i == total - 1 && l.isEmpty) then
      .error ⟨"Unexpected trailing space", some (i + 1), some l.length⟩
    else checkTrailing ls (i + 1) total

/-- `Lexer._validate_source` (lexer.py lines 64-96): BOM check, code-point
scan, then trailing-space scan. -/
def validateSource (src : List Char) : Except YayErr Unit :=
  if 3 ≤ src.length &&
      (src.head? == some (Char.ofNat 0xFEFF) || src.take 3 == [Char.ofNat 0xEF, Char.ofNat 0xBB, Char.ofNat 0xBF]) then
    .error ⟨"Illegal BOM", some 1, some 1⟩
  else
    match scanCodePoints src 1 1 with
    | .error e => .error e
    | .ok () =>
      let lines := splitNL src
      checkTrailing lines 0 lines.length

/-- Mutable lexer state (lexer.py lines 37-45).  The source is kept as the
remaining suffix `rem` (Python `source[pos:]`); block readers rewind by
restoring a saved copy.  `indent_stack` and `pending_tokens` are never read
by the source and are omitted. -/
structure LexSt where
  rem : List Char
  line : Nat
  col : Nat
  atLineStart : Bool
  currentLineIndent : Nat
deriving Repr

/-- `Lexer.peek(offset)`; Python returns an empty string past the end, modelled as `none`. -/
def LexSt.peek (st : LexSt) (k : Nat) : Option Char := st.rem.get? k

/-- `Lexer.advance()` for a single character (lexer.py lines 105-116). -/
def LexSt.adv1 (st : LexSt) : LexSt :=
  match st.rem with
  | [] => st
  | c :: t =>
    if c = '\n' then
      { st with rem := t, line := st.line + 1, col := 1, atLineStart := true }
    else
      { st with rem := t, col := st.col + 1 }

/-- `Lexer.advance(count)`. -/
def LexSt.advN (st : LexSt) : Nat → LexSt
  | 0 => st
  | n + 1 => st.adv1.advN n

/-- `Lexer.skip_to_eol` (lexer.py lines 118-121): advance up to the next
newline (newlines never occur before it, so only `col` moves). -/
def skipToEol (st : LexSt) : LexSt :=
  st.advN (st.rem.takeWhile (fun c => c != '\n')).length

/-- State of the scanning loop of `Lexer.read_number` (lexer.py lines 471-476). -/
structure NumAcc where
  chars : List Char
  hasDot : Bool
  hasExp : Bool
  lastWasSpace : Bool
  spaceCol : Nat
deriving Repr

/-- The scanning loop of `Lexer.read_number` (lexer.py lines 482-529). -/
def numLoop : Nat → LexSt → NumAcc → Except Err (NumAcc × LexSt)
  | 0, _, _ => .error .fuelOut
  | fuel + 1, st, a =>
    match st.peek 0 with
    | Option.none => .ok (a, st)
    | some c =>
      if pyIsDigit c then
        numLoop fuel st.adv1 { a with chars := a.chars ++ [c], lastWasSpace := false }
      else if c == '.' then
        if a.hasDot || a.hasExp then .ok (a, st)
        else if a.lastWasSpace then
          .error (synErr "Unexpected space in number" st.line a.spaceCol)
        else
          let stA := st.adv1
          if stA.peek 0 == some ' ' then
            .error (synErr "Unexpected space in number" stA.line stA.col)
          else
            numLoop fuel stA { a with chars := a.chars ++ [c], hasDot := true }
      else if c == 'e' then
        if !a.hasExp && !a.chars.isEmpty then
          let stA := st.adv1
          match stA.peek 0 with
          | some s =>
            if s == '+' || s == '-' then
              numLoop fuel stA.adv1 { a with chars := a.chars ++ [c, s], hasExp := true }
            else
              numLoop fuel stA { a with chars := a.chars ++ [c], hasExp := true }
          | Option.none =>
            numLoop fuel stA { a with chars := a.chars ++ [c], hasExp := true }
        else .ok (a, st)
      else if c == 'E' then
        if !a.hasExp && !a.chars.isEmpty then
          .error (synErr "Uppercase exponent (use lowercase \x27e\x27)" st.line st.col)
        else .ok (a, st)
      else if c == ' ' then
        match st.peek 1 with
        | some d =>
          if pyIsDigit d then
            numLoop fuel st.adv1 { a with lastWasSpace := true, spaceCol := st.col }
          else if d == '.' then
            .error (synErr "Unexpected space in number" st.line st.col)
          else .ok (a, st)
        | Option.none => .ok (a, st)
      else .ok (a, st)

/-- Value of a string of decimal digits. -/
def digitsToNat (ds : List Char) : Nat :=
  ds.foldl (fun acc c => 10 * acc + (c.toNat - 48)) 0

/-- Python `int(s)` for the numeral strings `read_number` can build
(optional sign then digits; whitespace/underscore forms are unreachable). -/
def pyInt (s : String) : Option Int :=
  match s.data with
  | [] => Option.none
  | c :: t =>
    if c = '-' then
      if !t.isEmpty && t.all pyIsDigit then some (-(digitsToNat t : Int)) else Option.none
    else
      if (c :: t).all pyIsDigit then some ((digitsToNat (c :: t) : Nat) : Int) else Option.none

/-- Mantissa part of a Python float literal: digits with an optional
fractional part, or a leading dot with at least one fractional digit. -/
def mantissaValid (cs : List Char) : Bool :=
  let ip := cs.takeWhile pyIsDigit
  let rest := cs.drop ip.length
  match rest with
  | [] => !ip.isEmpty
  | '.' :: fp =>
    let fd := fp.takeWhile pyIsDigit
    (fp.drop fd.length).isEmpty && (!ip.isEmpty || !fd.isEmpty)
  | _ => false

/-- Python `float(s)` acceptance for the numeral strings `read_number` can
build (chars drawn from digits, `-`, `+`, `.`, `e`).  The overflow of huge
exponents to infinity is not modelled (the value stays symbolic). -/
def floatLitValid (cs : List Char) : Bool :=
  let body := match cs with
    | '-' :: t => t
    | '+' :: t => t
    | t => t
  let m := body.takeWhile (fun c => c != 'e')
  let rest := body.drop m.length
  match rest with
  | [] => mantissaValid m
  | _ :: ex =>
    let exBody := match ex with
      | '+' :: t => t
      | '-' :: t => t
      | t => t
    mantissaValid m && !exBody.isEmpty && exBody.all pyIsDigit

/-- Python `float(s)`, value kept symbolic. -/
def pyFloat (s : String) : Option FloatVal :=
  if floatLitValid s.data then some (.lit s) else Option.none

/-- `Lexer.read_number` (lexer.py lines 464-544). -/
def readNumber (fuel : Nat) (st : LexSt) : Except Err (Token × LexSt) :=
  let startLine := st.line
  let startCol := st.col
  let init : NumAcc := { chars := [], hasDot := false, hasExp := false,
                         lastWasSpace := false, spaceCol := 0 }
  let start := if st.peek 0 == some '-'
    then (st.adv1, { init with chars := ['-'] })
    else (st, init)
  match numLoop fuel start.1 start.2 with
  | .error e => .error e
  | .ok (a, stE) =>
    let numStr := String.mk a.chars
    if a.hasDot || a.hasExp then
      match pyFloat numStr with
      | some f => .ok (⟨"FLOAT", .float f, startLine, startCol⟩, stE)
      | Option.none => .error (synErr ("Invalid float: " ++ numStr) stE.line stE.col)
    else
      match pyInt numStr with
      | some n => .ok (⟨"INT", .int n, startLine, startCol⟩, stE)
      | Option.none => .error (synErr ("Invalid integer: " ++ numStr) stE.line stE.col)

/-- Characters of an identifier (lexer.py lines 641-646). -/
def identChar (c : Char) : Bool := pyIsAlnum c || c == '_' || c == '-'

/-- `Lexer.read_identifier` (lexer.py lines 635-662). -/
def readIdentifier (st : LexSt) : Token × LexSt :=
  let startLine := st.line
  let startCol := st.col
  let cs := st.rem.takeWhile identChar
  let stE := st.advN cs.length
  let name := String.mk cs
  if name = "null" then (⟨"NULL", .none, startLine, startCol⟩, stE)
  else if name = "true" then (⟨"BOOL", .bool true, startLine, startCol⟩, stE)
  else if name = "false" then (⟨"BOOL", .bool false, startLine, startCol⟩, stE)
  else if name = "infinity" then (⟨"FLOAT", .float .inf, startLine, startCol⟩, stE)
  else if name = "nan" then (⟨"FLOAT", .float .nan, startLine, startCol⟩, stE)
  else (⟨"IDENT", .str name, startLine, startCol⟩, stE)

/-- Value of a hex digit character. -/
def hexVal (c : Char) : Nat :=
  if pyIsDigit c then c.toNat - 48
  else if 'a' ≤ c && c ≤ 'f' then c.toNat - 87
  else if 'A' ≤ c && c ≤ 'F' then c.toNat - 55
  else 0

/-- Lowercase hex digits `0-9a-f` (the character set used at lexer.py line 612). -/
def isLowerHex (c : Char) : Bool := pyIsDigit c || ('a' ≤ c && c ≤ 'f')

/-- Uppercase hex letters `A-F` (the character set used at lexer.py line 614). -/
def isUpperHexLetter (c : Char) : Bool := 'A' ≤ c && c ≤ 'F'

/-- `bytes.fromhex` on an even run of hex digits. -/
def hexToBytes : List Char → List Nat
  | a :: b :: t => (16 * hexVal a + hexVal b) :: hexToBytes t
  | _ => []

/-- The escape-digit loop of the braced Unicode escape (lexer.py lines 403-411). -/
def uLoop : Nat → LexSt → List Char → Except Err (List Char × LexSt)
  | 0, _, _ => .error .fuelOut
  | fuel + 1, st, acc =>
    match st.peek 0 with
    | Option.none => .ok (acc, st)
    | some h =>
      if h == '\x7d' then .ok (acc, st)
      else if !(pyIsDigit h || ('a' ≤ h && h ≤ 'f') || ('A' ≤ h && h ≤ 'F')) then
        .error (synErr "Bad Unicode escape" st.line st.col)
      else
        let stA := st.adv1
        if acc.length + 1 > 6 then .error (synErr "Bad Unicode escape" stA.line stA.col)
        else uLoop fuel stA (acc ++ [h])

/-- Numeric value of a run of hex digits. -/
def hexStrVal (ds : List Char) : Nat := ds.foldl (fun acc c => 16 * acc + hexVal c) 0

/-- Body loop of `Lexer._read_double_quoted_string` (lexer.py lines 366-436). -/
def dqLoop : Nat → LexSt → List Char → Except Err (List Char × LexSt)
  | 0, _, _ => .error .fuelOut
  | fuel + 1, st, acc =>
    match st.peek 0 with
    | Option.none => .error (synErr "Unterminated string" st.line st.col)
    | some c =>
      if c == '"' then .ok (acc, st.adv1)
      else if c == '\\' then
        let stB := st.adv1
        match stB.peek 0 with
        | Option.none => .error (synErr "Unterminated escape sequence" stB.line stB.col)
        | some e =>
          if e == 'n' then dqLoop fuel stB.adv1 (acc ++ ['\n'])
          else if e == 'r' then dqLoop fuel stB.adv1 (acc ++ ['\r'])
          else if e == 't' then dqLoop fuel stB.adv1 (acc ++ ['\t'])
          else if e == 'b' then dqLoop fuel stB.adv1 (acc ++ ['\x08'])
          else if e == 'f' then dqLoop fuel stB.adv1 (acc ++ ['\x0c'])
          else if e == '\\' then dqLoop fuel stB.adv1 (acc ++ ['\\'])
          else if e == '/' then dqLoop fuel stB.adv1 (acc ++ ['/'])
          else if e == '"' then dqLoop fuel stB.adv1 (acc ++ ['"'])
          else if e == 'u' then
            let stU := stB.adv1
            if stU.peek 0 != some '\x7b' then
              .error (synErr "Bad escaped character" stU.line stU.col)
            else
              let stO := stU.adv1
              match uLoop fuel stO [] with
              | .error er => .error er
              | .ok (hx, stH) =>
                if stH.peek 0 != some '\x7d' then
                  .error (synErr "Bad Unicode escape" stH.line stH.col)
                else
                  let stC := stH.adv1
                  if hx.isEmpty then .error (synErr "Bad Unicode escape" stC.line stC.col)
                  else
                    let cp := hexStrVal hx
                    if 0xD800 ≤ cp && cp ≤ 0xDFFF then
                      .error (synErr "Illegal surrogate" stC.line stC.col)
                    else if cp > 0x10FFFF then
                      .error (synErr "Unicode code point out of range" stC.line stC.col)
                    else dqLoop fuel stC (acc ++ [Char.ofNat cp])
          else .error (synErr "Bad escaped character" stB.line stB.col)
      else if c.toNat < 0x20 then
        if c == '\n' || c == '\r' then .error (synErr "Unterminated string" st.line st.col)
        else .error (synErr "Bad character in string" st.line st.col)
      else dqLoop fuel st.adv1 (acc ++ [c])

/-- Body loop of `Lexer._read_single_quoted_string` (lexer.py lines 438-462). -/
def sqLoop : Nat → LexSt → List Char → Except Err (List Char × LexSt)
  | 0, _, _ => .error .fuelOut
  | fuel + 1, st, acc =>
    match st.peek 0 with
    | Option.none => .error (synErr "Unterminated string" st.line st.col)
    | some c =>
      if c == '\x27' then
        let stA := st.adv1
        if stA.peek 0 == some '\x27' then sqLoop fuel stA.adv1 (acc ++ ['\x27'])
        else .ok (acc, stA)
      else if c.toNat < 0x20 then
        if c == '\n' || c == '\r' then .error (synErr "Unterminated string" st.line st.col)
        else .error (synErr "Bad character in string" st.line st.col)
      else sqLoop fuel st.adv1 (acc ++ [c])

/-- `Lexer.read_string` (lexer.py lines 133-142): consume the opening quote
and dispatch on it. -/
def readString (fuel : Nat) (quote : Char) (st : LexSt) : Except Err (Token × LexSt) :=
  let startLine := st.line
  let startCol := st.col
  let stA := st.adv1
  if quote = '"' then
    match dqLoop fuel stA [] with
    | .error e => .error e
    | .ok (cs, stE) => .ok (⟨"STRING", .str (String.mk cs), startLine, startCol⟩, stE)
  else
    match sqLoop fuel stA [] with
    | .error e => .error e
    | .ok (cs, stE) => .ok (⟨"STRING", .str (String.mk cs), startLine, startCol⟩, stE)

/-- Drop trailing empty lines (lexer.py lines 232-234). -/
def dropTrailingEmptyLines (ls : List (List Char)) : List (List Char) :=
  (ls.reverse.dropWhile List.isEmpty).reverse

/-- Python `repr` of a one-character string, for f-string error messages. -/
def pyReprChar (c : Char) : String :=
  if c == '\x27' then "\"\x27\""
  else if c == '\\' then "\x27\\\\\x27"
  else if c == '\n' then "\x27\\n\x27"
  else if c == '\r' then "\x27\\r\x27"
  else if c == '\t' then "\x27\\t\x27"
  else if 0x20 ≤ c.toNat && c.toNat ≤ 0x7e then String.mk ['\x27', c, '\x27']
  else if c.toNat < 0x100 then "\x27\\x" ++ String.mk [hexDigitLower (c.toNat / 16), hexDigitLower (c.toNat % 16)] ++ "\x27"
  else "\x27\\u" ++ hex4Lower c.toNat ++ "\x27"

/-- Python `str()` of a token payload, for the `Unexpected: -...` message. -/
def pyStrOfObj : PyObj → String
  | .none => "None"
  | .bool true => "True"
  | .bool false => "False"
  | .int n => toString n
  | .str s => s
  | .float .inf => "inf"
  | .float .negInf => "-inf"
  | .float .nan => "nan"
  | .float (.lit s) => s
  | .bytes _ => ""

/-- Content-line loop of `Lexer._read_block_string_content` (lexer.py lines 188-231). -/
def blockStrLoop : Nat → LexSt → List (List Char) → Nat → Except Err (List (List Char) × LexSt)
  | 0, _, _, _ => .error .fuelOut
  | fuel + 1, st, acc, base =>
    if st.rem.isEmpty then .ok (acc, st)
    else
      let snap := st
      let spaces := (st.rem.takeWhile (fun c => c == ' ')).length
      let stS := st.advN spaces
      if spaces ≤ base && stS.peek 0 != some '\n' && stS.peek 0 != Option.none then
        .ok (acc, { snap with col := 1, atLineStart := true })
      else if stS.peek 0 == some '\n' then
        blockStrLoop fuel stS.adv1 (acc ++ [[]]) base
      else if stS.peek 0 == Option.none then
        .ok (acc, stS)
      else
        let contentIndent := spaces - base
        let extra := if contentIndent ≥ 2 then List.replicate (contentIndent - 2) ' ' else []
        let content := stS.rem.takeWhile (fun c => c != '\n')
        let stC := stS.advN content.length
        let stN := if stC.peek 0 == some '\n' then stC.adv1 else stC
        blockStrLoop fuel stN (acc ++ [extra ++ content]) base

/-- `Lexer._read_block_string_content` (lexer.py lines 168-248). -/
def blockStrContent (fuel : Nat) (st : LexSt) (startLine startCol : Nat)
    (sameLine : Bool) : Except Err (Token × LexSt) :=
  let base := st.currentLineIndent
  let start :=
    if sameLine then
      let firstLine := st.rem.takeWhile (fun c => c != '\n')
      let stF := st.advN firstLine.length
      let stG := if stF.peek 0 == some '\n' then stF.adv1 else stF
      ([firstLine], stG)
    else ([], st)
  match blockStrLoop fuel start.2 start.1 base with
  | .error e => .error e
  | .ok (lns, stE) =>
    let lns2 := dropTrailingEmptyLines lns
    let result := List.intercalate ['\n'] lns2
    if sameLine then
      .ok (⟨"STRING", .str (String.mk (result ++ ['\n'])), startLine, startCol⟩, stE)
    else
      if !result.isEmpty then
        .ok (⟨"STRING", .str (String.mk ('\n' :: (result ++ ['\n']))), startLine, startCol⟩, stE)
      else
        .error (synErr "Empty block string not allowed (use \"\" or \"\\n\" explicitly)" stE.line stE.col)

/-- `Lexer._read_backtick_block_string` (lexer.py lines 144-166). -/
def readBacktickBlockString (fuel : Nat) (st : LexSt) : Except Err (Token × LexSt) :=
  let startLine := st.line
  let startCol := st.col
  let stA := st.adv1
  if stA.peek 0 == some '\n' then
    blockStrContent fuel stA.adv1 startLine startCol false
  else if stA.peek 0 == some ' ' then
    blockStrContent fuel stA.adv1 startLine startCol true
  else
    .error (synErr "Expected space or newline after \x27\x60\x27" stA.line stA.col)

/-- Hex-content loop shared by the lines of `Lexer._read_block_bytes`
(lexer.py lines 283-298 and 334-349). -/
def blockHexLine : Nat → LexSt → List Char → Except Err (List Char × LexSt)
  | 0, _, _ => .error .fuelOut
  | fuel + 1, st, acc =>
    match st.peek 0 with
    | Option.none => .ok (acc, st)
    | some c =>
      if c == '\n' then .ok (acc, st)
      else if c == '#' then .ok (acc, skipToEol st)
      else if c == ' ' then blockHexLine fuel st.adv1 acc
      else if isLowerHex c then blockHexLine fuel st.adv1 (acc ++ [c])
      else if isUpperHexLetter c then
        .error (synErr "Uppercase hex digit (use lowercase)" st.line st.col)
      else
        .error (synErr ("Invalid character in byte array: " ++ pyReprChar c) st.line st.col)

/-- Continuation-line loop of `Lexer._read_block_bytes` (lexer.py lines 304-353). -/
def blockBytesLoop : Nat → LexSt → List Char → Nat → Except Err (List Char × LexSt)
  | 0, _, _, _ => .error .fuelOut
  | fuel + 1, st, acc, base =>
    if st.rem.isEmpty then .ok (acc, st)
    else
      let snap := st
      let spaces := (st.rem.takeWhile (fun c => c == ' ')).length
      let stS := st.advN spaces
      if spaces ≤ base && stS.peek 0 != some '\n' && stS.peek 0 != Option.none then
        .ok (acc, { snap with col := 1, atLineStart := true })
      else if stS.peek 0 == some '\n' then
        .ok (acc, { snap with col := 1, atLineStart := true })
      else if stS.peek 0 == Option.none then
        .ok (acc, stS)
      else
        match blockHexLine fuel stS acc with
        | .error e => .error e
        | .ok (acc2, stC) =>
          let stN := if stC.peek 0 == some '\n' then stC.adv1 else stC
          blockBytesLoop fuel stN acc2 base

/-- `Lexer._read_block_bytes` (lexer.py lines 250-364). -/
def readBlockBytes (fuel : Nat) (st : LexSt) : Except Err (Token × LexSt) :=
  let startLine := st.line
  let startCol := st.col
  let stA := st.adv1
  let n0 := stA.peek 0
  let afterOpen :=
    if n0 == some ' ' then
      let stS := stA.adv1
      if stS.peek 0 == some '#' then
        let stT := skipToEol stS
        (true, stT, stT.peek 0)
      else (false, stS, some ' ')
    else (false, stA, n0)
  let hasContent := afterOpen.1
  let stB := afterOpen.2.1
  let nextCh := afterOpen.2.2
  let step1 : Except Err LexSt :=
    if nextCh == some '\n' || nextCh == Option.none then
      if !hasContent && startCol == 1 then
        .error (synErr "Expected hex or comment in hex block" stB.line stB.col)
      else if nextCh == some '\n' then .ok stB.adv1
      else .ok stB
    else .ok stB
  match step1 with
  | .error e => .error e
  | .ok stC =>
    let base := stC.currentLineIndent
    match blockHexLine fuel stC [] with
    | .error e => .error e
    | .ok (acc1, stD) =>
      let stE := if stD.peek 0 == some '\n' then stD.adv1 else stD
      match blockBytesLoop fuel stE acc1 base with
      | .error e => .error e
      | .ok (hx, stF) =>
        if hx.length % 2 != 0 then
          .error (synErr "Odd number of hex digits in byte literal" stF.line stF.col)
        else .ok (⟨"BYTES", .bytes (hexToBytes hx), startLine, startCol⟩, stF)

/-- Body loop of `Lexer.read_bytes` (lexer.py lines 561-622), including the
reference to the undefined local `block_mode` at line 619 which makes any
other character raise a Python `NameError`. -/
def bytesLoop : Nat → LexSt → List Char → Bool → Nat → Bool → Nat → Nat →
    Except Err (List Char × LexSt)
  | 0, _, _, _, _, _, _, _ => .error .fuelOut
  | fuel + 1, st, acc, lws, spaceCol, multi, startLine, startCol =>
    match st.peek 0 with
    | Option.none =>
      if multi then .ok (acc, st)
      else .error (synErr "Unterminated byte array" st.line st.col)
    | some c =>
      if c == '>' then
        if lws then .error (synErr "Unexpected space before \">\"" st.line spaceCol)
        else .ok (acc, st.adv1)
      else if c == ' ' then
        bytesLoop fuel st.adv1 acc true st.col multi startLine startCol
      else if c == '\n' then
        if multi then
          let stA := st.adv1
          let spaces := (stA.rem.takeWhile (fun x => x == ' ')).length
          if spaces < 2 then .ok (acc, stA)
          else bytesLoop fuel { stA.advN spaces with atLineStart := false } acc false spaceCol multi startLine startCol
        else .error (synErr "Unmatched angle bracket" startLine startCol)
      else if c == '#' then
        bytesLoop fuel (skipToEol st) acc false spaceCol multi startLine startCol
      else if isLowerHex c then
        bytesLoop fuel st.adv1 (acc ++ [c]) false spaceCol multi startLine startCol
      else if isUpperHexLetter c then
        .error (synErr "Uppercase hex digit (use lowercase)" st.line st.col)
      else
        .error (.nameError "block_mode")

/-- `Lexer.read_bytes` (lexer.py lines 546-633). -/
def readBytes (fuel : Nat) (st : LexSt) (alreadyOpen multi : Bool) :
    Except Err (Token × LexSt) :=
  let startLine := st.line
  let startCol := st.col
  let stA := if alreadyOpen then st else st.adv1
  match bytesLoop fuel stA [] false 0 multi startLine startCol with
  | .error e => .error e
  | .ok (hx, stE) =>
    if hx.length % 2 != 0 then
      .error (synErr "Odd number of hex digits in byte literal" stE.line stE.col)
    else .ok (⟨"BYTES", .bytes (hexToBytes hx), startLine, startCol⟩, stE)

/-- One non-line-start dispatch step of `Lexer.tokenize` (lexer.py lines
697-833): returns the tokens emitted by the step (zero or one), the new
state, and the updated `_last_token`. -/
def tokStep (fuel : Nat) (st : LexSt) (last : Option Token) :
    Except Err (List Token × LexSt × Option Token) :=
  match st.peek 0 with
  | Option.none => .ok ([], st, last)
  | some c =>
    if c == '\n' then
      let tok : Token := ⟨"NEWLINE", .str "\n", st.line, st.col⟩
      .ok ([tok], st.adv1, some tok)
    else if c == ' ' then .ok ([], st.adv1, last)
    else if c == '#' then .ok ([], skipToEol st, last)
    else if c == '\t' then .error (synErr "Tab not allowed (use spaces)" st.line st.col)
    else if c == '"' || c == '\x27' then
      match readString fuel c st with
      | .error e => .error e
      | .ok (tok, stE) => .ok ([tok], stE, some tok)
    else if c == '\x60' then
      match readBacktickBlockString fuel st with
      | .error e => .error e
      | .ok (tok, stE) => .ok ([tok], stE, some tok)
    else if c == '>' then
      match readBlockBytes fuel st with
      | .error e => .error e
      | .ok (tok, stE) => .ok ([tok], stE, some tok)
    else if c == '<' then
      let startCol := st.col
      let stA := st.adv1
      match stA.peek 0 with
      | Option.none => .error (synErr "Unmatched angle bracket" stA.line startCol)
      | some n =>
        if n == '>' then
          let stB := stA.adv1
          let tok : Token := ⟨"BYTES", .bytes [], stB.line, stB.col - 2⟩
          .ok ([tok], stB, some tok)
        else if n == '\n' then .error (synErr "Unmatched angle bracket" stA.line startCol)
        else if isUpperHexLetter n then
          .error (synErr "Uppercase hex digit (use lowercase)" stA.line stA.col)
        else if n == ' ' || isLowerHex n then
          match readBytes fuel stA true false with
          | .error e => .error e
          | .ok (tok, stE) => .ok ([tok], stE, some tok)
        else
          .error (synErr ("Invalid character after \x27<\x27: " ++ pyReprChar n) stA.line stA.col)
    else if pyIsDigit c || c == '.' then
      match readNumber fuel st with
      | .error e => .error e
      | .ok (tok, stE) => .ok ([tok], stE, some tok)
    else if c == '-' then
      match st.peek 1 with
      | some n =>
        if pyIsDigit n || n == '.' then
          match readNumber fuel st with
          | .error e => .error e
          | .ok (tok, stE) => .ok ([tok], stE, some tok)
        else if n == 'i' then
          let stA := st.adv1
          let r := readIdentifier stA
          let tok := r.1
          if tok.kind == "FLOAT" && tok.value == .float .inf then
            let tok2 : Token := ⟨"FLOAT", .float .negInf, tok.line, tok.col - 1⟩
            .ok ([tok2], r.2, some tok2)
          else
            .error (synErr ("Unexpected: -" ++ pyStrOfObj tok.value) r.2.line r.2.col)
        else
          let tok : Token := ⟨"DASH", .str "-", st.line, st.col⟩
          .ok ([tok], st.adv1, some tok)
      | Option.none =>
        let tok : Token := ⟨"DASH", .str "-", st.line, st.col⟩
        .ok ([tok], st.adv1, some tok)
    else if c == ':' then
      let tok : Token := ⟨"COLON", .str ":", st.line, st.col⟩
      .ok ([tok], st.adv1, some tok)
    else if c == ',' then
      let tok : Token := ⟨"COMMA", .str ",", st.line, st.col⟩
      .ok ([tok], st.adv1, some tok)
    else if c == '[' then
      let tok : Token := ⟨"LBRACKET", .str "[", st.line, st.col⟩
      .ok ([tok], st.adv1, some tok)
    else if c == ']' then
      let tok : Token := ⟨"RBRACKET", .str "]", st.line, st.col⟩
      .ok ([tok], st.adv1, some tok)
    else if c == '\x7b' then
      let tok : Token := ⟨"LBRACE", .str "\x7b", st.line, st.col⟩
      .ok ([tok], st.adv1, some tok)
    else if c == '\x7d' then
      let tok : Token := ⟨"RBRACE", .str "\x7d", st.line, st.col⟩
      .ok ([tok], st.adv1, some tok)
    else if pyIsAlpha c || c == '_' then
      let r := readIdentifier st
      .ok ([r.1], r.2, some r.1)
    else
      match last with
      | some t =>
        if t.kind == "LBRACE" || t.kind == "COMMA" then
          .error (synErr "Invalid key" st.line st.col)
        else
          .error (synErr ("Unexpected character \"" ++ String.mk [c] ++ "\"") st.line st.col)
      | Option.none =>
        .error (synErr ("Unexpected character \"" ++ String.mk [c] ++ "\"") st.line st.col)

/-- The token-generation loop of `Lexer.tokenize` (lexer.py lines 672-833). -/
def tokLoop : Nat → LexSt → Option Token → List Token → Except Err (List Token × LexSt)
  | 0, _, _, _ => .error .fuelOut
  | fuel + 1, st, last, acc =>
    if st.rem.isEmpty then .ok (acc, st)
    else if st.atLineStart then
      let st1 := { st with atLineStart := false }
      let spaces := (st1.rem.takeWhile (fun c => c == ' ')).length
      let st2 := st1.advN spaces
      if st2.peek 0 == some '\t' then
        .error (synErr "Tab not allowed (use spaces)" st2.line st2.col)
      else if st2.peek 0 == some '\n' then
        tokLoop fuel st2.adv1 last acc
      else if st2.peek 0 == some '#' then
        let st3 := skipToEol st2
        let st4 := if st3.peek 0 == some '\n' then st3.adv1 else st3
        tokLoop fuel { st4 with atLineStart := true } last acc
      else if st2.peek 0 == Option.none then
        .ok (acc, st2)
      else
        let st5 := { st2 with currentLineIndent := spaces }
        let tok : Token := ⟨"INDENT", .int (Int.ofNat spaces), st5.line, 1⟩
        tokLoop fuel st5 (some tok) (acc ++ [tok])
    else
      match tokStep fuel st last with
      | .error e => .error e
      | .ok (toks, stE, lastE) => tokLoop fuel stE lastE (acc ++ toks)

/-- `Lexer.tokenize` (lexer.py lines 664-839), materialised as a list as
`Parser.__init__` does. -/
def tokenize (fuel : Nat) (src : List Char) : Except Err (List Token) :=
  let st0 : LexSt := { rem := src, line := 1, col := 1, atLineStart := true,
                       currentLineIndent := 0 }
  match tokLoop fuel st0 Option.none [] with
  | .error e => .error e
  | .ok (acc, stE) =>
    let acc2 := if !stE.atLineStart
      then acc ++ [⟨"NEWLINE", .str "\n", stE.line, stE.col⟩]
      else acc
    .ok (acc2 ++ [⟨"EOF", .none, stE.line, stE.col⟩])

/-- Parser state (parser.py lines 21-26): the materialised token list, the
cursor, and the source split into lines for column-accurate checks. -/
structure ParserSt where
  tokens : List Token
  pos : Nat
  srcLines : List (List Char)
deriving Repr

/-- `Parser.peek(offset)` (parser.py lines 175-180); out-of-range reads the
final token (always EOF). -/
def ParserSt.peekTok (p : ParserSt) (off : Nat) : Token :=
  let idx := p.pos + off
  if idx ≥ p.tokens.length then p.tokens.getLastD ⟨"EOF", .none, 0, 0⟩
  else (p.tokens.get? idx).getD ⟨"EOF", .none, 0, 0⟩

/-- `Parser.advance` (cursor part). -/
def ParserSt.adv (p : ParserSt) : ParserSt := { p with pos := p.pos + 1 }

/-- `Parser.char_at` (parser.py lines 33-40); Python returns an empty
string out of range, modelled as `none`. -/
def ParserSt.charAt (p : ParserSt) (line col : Nat) : Option Char :=
  if line < 1 || line > p.srcLines.length then Option.none
  else
    match p.srcLines.get? (line - 1) with
    | Option.none => Option.none
    | some lc =>
      if col < 1 || col > lc.length then Option.none
      else lc.get? (col - 1)

/-- `Parser.check_no_space_before` (parser.py lines 50-56). -/
def checkNoSpaceBefore (p : ParserSt) (tok : Token) (ch : String) : Except Err Unit :=
  let prevCol := tok.col - 1
  if prevCol ≥ 1 && p.charAt tok.line prevCol == some ' ' then
    .error (synErr ("Unexpected space before \"" ++ ch ++ "\"") tok.line prevCol)
  else .ok ()

/-- `Parser.expect` (parser.py lines 188-193). -/
def expectTok (p : ParserSt) (kind : String) : Except Err (Token × ParserSt) :=
  let t := p.peekTok 0
  if t.kind != kind then
    .error (synErr ("Expected " ++ kind ++ ", got " ++ t.kind) t.line t.col)
  else .ok (t, p.adv)

/-- Indent count carried by an INDENT token. -/
def getIndent (t : Token) : Int :=
  match t.value with
  | .int n => n
  | _ => 0

/-- String payload of a token. -/
def tokStr (t : Token) : String :=
  match t.value with
  | .str s => s
  | _ => ""

/-- Token payload as a parsed value (`return token.value`). -/
def pyObjToValue : PyObj → Value
  | .none => .null
  | .bool b => .bool b
  | .int n => .int n
  | .float f => .float f
  | .str s => .str s
  | .bytes bs => .bytes bs

/-- Python `str.strip` (ASCII whitespace fragment). -/
def pyStrip (cs : List Char) : List Char :=
  ((cs.dropWhile pyIsSpace).reverse.dropWhile pyIsSpace).reverse

/-- The comma-lookahead of `Parser.validate_inline_syntax` (parser.py lines
126-164): scan forward for the next close or comma at the same depth and
report whether it is a closing bracket preceded by a space. -/
def lookLoop : Nat → List Char → Nat → Char → Char → Nat → Nat → Bool → Bool → Bool → Bool
  | 0, _, _, _, _, _, _, _, _, _ => false
  | fuel + 1, s, j, openC, closeC, lookDepth, depth, inS, inD, esc =>
    match s.get? j with
    | Option.none => false
    | some cj =>
      if esc then lookLoop fuel s (j + 1) openC closeC lookDepth depth inS inD false
      else if inS then
        if cj == '\\' then lookLoop fuel s (j + 1) openC closeC lookDepth depth true inD true
        else if cj == '\x27' then lookLoop fuel s (j + 1) openC closeC lookDepth depth false inD false
        else lookLoop fuel s (j + 1) openC closeC lookDepth depth true inD false
      else if inD then
        if cj == '\\' then lookLoop fuel s (j + 1) openC closeC lookDepth depth inS true true
        else if cj == '"' then lookLoop fuel s (j + 1) openC closeC lookDepth depth inS false false
        else lookLoop fuel s (j + 1) openC closeC lookDepth depth inS true false
      else if cj == '\x27' then lookLoop fuel s (j + 1) openC closeC lookDepth depth true inD esc
      else if cj == '"' then lookLoop fuel s (j + 1) openC closeC lookDepth depth inS true esc
      else if cj == openC then lookLoop fuel s (j + 1) openC closeC (lookDepth + 1) depth inS inD esc
      else if cj == closeC then
        if lookDepth == depth then decide (j > 0 && s.get? (j - 1) == some ' ')
        else if lookDepth > 0 then lookLoop fuel s (j + 1) openC closeC (lookDepth - 1) depth inS inD esc
        else lookLoop fuel s (j + 1) openC closeC lookDepth depth inS inD esc
      else if cj == ',' && lookDepth == depth then false
      else lookLoop fuel s (j + 1) openC closeC lookDepth depth inS inD esc

/-- The scanning loop of `Parser.validate_inline_syntax` (parser.py lines 78-173). -/
def valLoop : Nat → List Char → Nat → Nat → Nat → Char → Char → Bool → Bool → Bool → Nat → Except Err Unit
  | 0, _, _, _, _, _, _, _, _, _, _ => .error .fuelOut
  | fuel + 1, s, i, line, startCol, openC, closeC, inS, inD, esc, depth =>
    match s.get? i with
    | Option.none => .ok ()
    | some ch =>
      if esc then valLoop fuel s (i + 1) line startCol openC closeC inS inD false depth
      else if inS then
        if ch == '\\' then valLoop fuel s (i + 1) line startCol openC closeC true inD true depth
        else if ch == '\x27' then valLoop fuel s (i + 1) line startCol openC closeC false inD false depth
        else valLoop fuel s (i + 1) line startCol openC closeC true inD false depth
      else if inD then
        if ch == '\\' then valLoop fuel s (i + 1) line startCol openC closeC inS true true depth
        else if ch == '"' then valLoop fuel s (i + 1) line startCol openC closeC inS false false depth
        else valLoop fuel s (i + 1) line startCol openC closeC inS true false depth
      else if ch == '\x27' then valLoop fuel s (i + 1) line startCol openC closeC true inD esc depth
      else if ch == '"' then valLoop fuel s (i + 1) line startCol openC closeC inS true esc depth
      else if ch == openC then
        if i + 1 < s.length && s.get? (i + 1) == some ' ' then
          .error (synErr ("Unexpected space after \"" ++ String.mk [openC] ++ "\"") line (startCol + i + 1))
        else valLoop fuel s (i + 1) line startCol openC closeC inS inD esc (depth + 1)
      else if ch == closeC then
        if i > 0 && s.get? (i - 1) == some ' ' then
          .error (synErr ("Unexpected space before \"" ++ String.mk [closeC] ++ "\"") line (startCol + i - 1))
        else
          let depth2 := if depth > 0 then depth - 1 else depth
          valLoop fuel s (i + 1) line startCol openC closeC inS inD esc depth2
      else if ch == ',' then
        if i > 0 && s.get? (i - 1) == some ' ' then
          .error (synErr "Unexpected space before \",\"" line (startCol + i - 1))
        else if i + 1 < s.length && s.get? (i + 1) != some ' ' && s.get? (i + 1) != some closeC
            && !lookLoop (s.length + 1) s (i + 1) openC closeC depth depth false false false then
          .error (synErr "Expected space after \",\"" line (startCol + i + 1))
        else if i + 2 < s.length && s.get? (i + 1) == some ' ' && s.get? (i + 2) == some ' ' then
          .error (synErr "Unexpected space after \",\"" line (startCol + i + 2))
        else valLoop fuel s (i + 1) line startCol openC closeC inS inD esc depth
      else valLoop fuel s (i + 1) line startCol openC closeC inS inD esc depth

/-- `Parser.validate_inline_syntax` (parser.py lines 58-173). -/
def validateInlineSyntax (p : ParserSt) (line startCol : Nat) (openC closeC : Char) :
    Except Err Unit :=
  let lineContent := if line ≤ p.srcLines.length then (p.srcLines.get? (line - 1)).getD [] else []
  let s := if startCol ≤ lineContent.length then lineContent.drop (startCol - 1) else []
  valLoop (s.length + 1) s 0 line startCol openC closeC false false false 0

/-- `Parser.parse_key` (parser.py lines 426-438). -/
def parseKey (p : ParserSt) : Except Err (String × ParserSt) :=
  let t := p.peekTok 0
  if t.kind == "IDENT" || t.kind == "STRING" then .ok (tokStr t, p.adv)
  else .error (synErr ("Expected key, got " ++ t.kind) t.line t.col)

/-- `while self.peek().kind == "NEWLINE": self.advance()` (parser.py lines 206-207). -/
def skipNewlineToks : Nat → ParserSt → ParserSt
  | 0, p => p
  | fuel + 1, p =>
    if (p.peekTok 0).kind == "NEWLINE" then skipNewlineToks fuel p.adv else p

/-- `Parser.skip_newlines` (parser.py lines 195-198). -/
def skipNLIndent : Nat → ParserSt → ParserSt
  | 0, p => p
  | fuel + 1, p =>
    let k := (p.peekTok 0).kind
    if k == "NEWLINE" || k == "INDENT" then skipNLIndent fuel p.adv else p

mutual

/-- `Parser.parse_value` (parser.py lines 232-298). -/
def parseValue : Nat → ParserSt → Int → Except Err (Value × ParserSt)
  | 0, _, _ => .error .fuelOut
  | fuel + 1, p, minIndent =>
    let t := p.peekTok 0
    if t.kind == "NULL" then .ok (.null, p.adv)
    else if t.kind == "BOOL" then .ok (pyObjToValue t.value, p.adv)
    else if t.kind == "INT" then .ok (pyObjToValue t.value, p.adv)
    else if t.kind == "FLOAT" then .ok (pyObjToValue t.value, p.adv)
    else if t.kind == "STRING" then
      if (p.peekTok 1).kind == "COLON" then parseBlockObject fuel p minIndent
      else .ok (pyObjToValue t.value, p.adv)
    else if t.kind == "BYTES" then .ok (pyObjToValue t.value, p.adv)
    else if t.kind == "LBRACKET" then parseInlineArray fuel p
    else if t.kind == "LBRACE" then parseInlineObject fuel p
    else if t.kind == "DASH" then parseBlockArray fuel p minIndent
    else if t.kind == "IDENT" && t.value == .str "" then
      .error (synErr "Empty identifier" t.line t.col)
    else if t.kind == "IDENT" then
      if (p.peekTok 1).kind == "COLON" then parseBlockObject fuel p minIndent
      else if (p.peekTok 1).kind == "IDENT" then
        .error (synErr "Invalid key character" t.line (t.col + (tokStr t).length))
      else
        let fc := match (tokStr t).data with
          | [] => "?"
          | c :: _ => String.mk [c]
        .error (synErr ("Unexpected character \"" ++ fc ++ "\"") t.line t.col)
    else .error (synErr ("Unexpected token: " ++ t.kind) t.line t.col)

/-- `Parser.parse_inline_array` (parser.py lines 300-332). -/
def parseInlineArray : Nat → ParserSt → Except Err (Value × ParserSt)
  | 0, _ => .error .fuelOut
  | fuel + 1, p =>
    let lb := p.peekTok 0
    match expectTok p "LBRACKET" with
    | .error e => .error e
    | .ok (_, p1) =>
      if (p1.peekTok 0).kind == "NEWLINE" then
        .error (synErr "Unexpected newline in inline array" lb.line lb.col)
      else
        match validateInlineSyntax p1 lb.line lb.col '[' ']' with
        | .error e => .error e
        | .ok () =>
          match parseInlineArrayLoop fuel p1 lb [] with
          | .error e => .error e
          | .ok (items, p2) => .ok (.arr items, p2)

/-- Item loop of `Parser.parse_inline_array` (parser.py lines 316-331). -/
def parseInlineArrayLoop : Nat → ParserSt → Token → List Value → Except Err (List Value × ParserSt)
  | 0, _, _, _ => .error .fuelOut
  | fuel + 1, p, lb, items =>
    let t := p.peekTok 0
    if t.kind == "RBRACKET" then .ok (items, p.adv)
    else if t.kind == "EOF" then .error (synErr "Unterminated array" t.line t.col)
    else if t.kind == "NEWLINE" then
      .error (synErr "Unexpected newline in inline array" lb.line lb.col)
    else
      match parseInlineValue fuel p with
      | .error e => .error e
      | .ok (v, p1) =>
        let n := p1.peekTok 0
        if n.kind == "COMMA" then parseInlineArrayLoop fuel p1.adv lb (items ++ [v])
        else if n.kind != "RBRACKET" then
          .error (synErr ("Expected \x27,\x27 or \x27]\x27, got " ++ n.kind) n.line n.col)
        else parseInlineArrayLoop fuel p1 lb (items ++ [v])

/-- `Parser.parse_inline_object` (parser.py lines 334-388). -/
def parseInlineObject : Nat → ParserSt → Except Err (Value × ParserSt)
  | 0, _ => .error .fuelOut
  | fuel + 1, p =>
    let lb := p.peekTok 0
    match expectTok p "LBRACE" with
    | .error e => .error e
    | .ok (_, p1) =>
      if (p1.peekTok 0).kind == "NEWLINE" then
        .error (synErr "Unexpected newline in inline object" lb.line lb.col)
      else
        match validateInlineSyntax p1 lb.line lb.col '\x7b' '\x7d' with
        | .error e => .error e
        | .ok () =>
          match parseInlineObjectLoop fuel p1 lb [] with
          | .error e => .error e
          | .ok (entries, p2) => .ok (.obj entries, p2)

/-- Entry loop of `Parser.parse_inline_object` (parser.py lines 350-387). -/
def parseInlineObjectLoop : Nat → ParserSt → Token → List (String × Value) →
    Except Err (List (String × Value) × ParserSt)
  | 0, _, _, _ => .error .fuelOut
  | fuel + 1, p, lb, entries =>
    let t := p.peekTok 0
    if t.kind == "RBRACE" then .ok (entries, p.adv)
    else if t.kind == "EOF" then .error (synErr "Unterminated object" t.line t.col)
    else if t.kind == "NEWLINE" then
      .error (synErr "Unexpected newline in inline object" lb.line lb.col)
    else
      match parseKey p with
      | .error e => .error e
      | .ok (key, p1) =>
        let colon := p1.peekTok 0
        if colon.kind != "COLON" then
          .error (synErr "Expected colon after key" lb.line lb.col)
        else
          let p2 := p1.adv
          match checkNoSpaceBefore p2 colon ":" with
          | .error e => .error e
          | .ok () =>
            let nextCol := colon.col + 1
            if p2.charAt colon.line nextCol != some ' ' then
              .error (synErr "Expected space after \":\"" colon.line nextCol)
            else if p2.charAt colon.line (nextCol + 1) == some ' ' then
              .error (synErr "Unexpected space after \":\"" colon.line (nextCol + 1))
            else
              match parseInlineValue fuel p2 with
              | .error e => .error e
              | .ok (v, p3) =>
                let entries2 := dictInsert entries key v
                let n := p3.peekTok 0
                if n.kind == "COMMA" then parseInlineObjectLoop fuel p3.adv lb entries2
                else if n.kind != "RBRACE" then
                  .error (synErr ("Expected \x27,\x27 or \x27\x7d\x27, got " ++ n.kind) n.line n.col)
                else parseInlineObjectLoop fuel p3 lb entries2

/-- `Parser.parse_inline_value` (parser.py lines 390-424). -/
def parseInlineValue : Nat → ParserSt → Except Err (Value × ParserSt)
  | 0, _ => .error .fuelOut
  | fuel + 1, p =>
    let t := p.peekTok 0
    if t.kind == "NULL" then .ok (.null, p.adv)
    else if t.kind == "BOOL" then .ok (pyObjToValue t.value, p.adv)
    else if t.kind == "INT" then .ok (pyObjToValue t.value, p.adv)
    else if t.kind == "FLOAT" then .ok (pyObjToValue t.value, p.adv)
    else if t.kind == "STRING" then .ok (pyObjToValue t.value, p.adv)
    else if t.kind == "BYTES" then .ok (pyObjToValue t.value, p.adv)
    else if t.kind == "LBRACKET" then parseInlineArray fuel p
    else if t.kind == "LBRACE" then parseInlineObject fuel p
    else .error (synErr ("Expected value, got " ++ t.kind) t.line t.col)

/-- `Parser.parse_block_array` (parser.py lines 440-488). -/
def parseBlockArray : Nat → ParserSt → Int → Except Err (Value × ParserSt)
  | 0, _, _ => .error .fuelOut
  | fuel + 1, p, base =>
    match parseBlockArrayLoop fuel p base [] with
    | .error e => .error e
    | .ok (items, p1) => .ok (.arr items, p1)

/-- Item loop of `Parser.parse_block_array` (parser.py lines 444-487). -/
def parseBlockArrayLoop : Nat → ParserSt → Int → List Value → Except Err (List Value × ParserSt)
  | 0, _, _, _ => .error .fuelOut
  | fuel + 1, p, base, items =>
    let t0 := p.peekTok 0
    let step :=
      if t0.kind == "INDENT" then
        let ind := getIndent t0
        if ind < base then Option.none
        else if ind > base && !items.isEmpty then Option.none
        else some p.adv
      else some p
    match step with
    | Option.none => .ok (items, p)
    | some p1 =>
      let t := p1.peekTok 0
      if t.kind != "DASH" then .ok (items, p1)
      else
        let dash := t
        let p2 := p1.adv
        let nextCol := dash.col + 1
        if p2.charAt dash.line nextCol != some ' ' then
          .error (synErr "Expected space after \"-\"" dash.line nextCol)
        else if p2.charAt dash.line (nextCol + 1) == some ' ' then
          if base == 0 && dash.col == 1 then
            .error (synErr "Unexpected leading space" dash.line 1)
          else
            .error (synErr "Unexpected space after \"-\"" dash.line dash.col)
        else
          match parseArrayItem fuel p2 (base + 2) with
          | .error e => .error e
          | .ok (item, p3) =>
            let p4 := if (p3.peekTok 0).kind == "NEWLINE" then p3.adv else p3
            parseBlockArrayLoop fuel p4 base (items ++ [item])

/-- `Parser.parse_array_item` (parser.py lines 490-519). -/
def parseArrayItem : Nat → ParserSt → Int → Except Err (Value × ParserSt)
  | 0, _, _ => .error .fuelOut
  | fuel + 1, p, itemIndent =>
    let t := p.peekTok 0
    if t.kind == "DASH" then parseBlockArray fuel p itemIndent
    else if t.kind == "NULL" || t.kind == "BOOL" || t.kind == "INT" || t.kind == "FLOAT"
        || t.kind == "STRING" || t.kind == "BYTES" then
      parseInlineValue fuel p
    else if t.kind == "LBRACKET" then parseInlineArray fuel p
    else if t.kind == "LBRACE" then parseInlineObject fuel p
    else if t.kind == "IDENT" && (p.peekTok 1).kind == "COLON" then
      parseBlockObject fuel p itemIndent
    else if t.kind == "IDENT" then
      let fc := match (tokStr t).data with
        | [] => "?"
        | c :: _ => String.mk [c]
      .error (synErr ("Unexpected character \"" ++ fc ++ "\"") t.line t.col)
    else .error (synErr ("Expected array item value, got " ++ t.kind) t.line t.col)

/-- `Parser.parse_block_object` (parser.py lines 521-588). -/
def parseBlockObject : Nat → ParserSt → Int → Except Err (Value × ParserSt)
  | 0, _, _ => .error .fuelOut
  | fuel + 1, p, base =>
    match parseBlockObjectLoop fuel p base base [] with
    | .error e => .error e
    | .ok (entries, p1) => .ok (.obj entries, p1)

/-- Entry loop of `Parser.parse_block_object` (parser.py lines 526-588). -/
def parseBlockObjectLoop : Nat → ParserSt → Int → Int → List (String × Value) →
    Except Err (List (String × Value) × ParserSt)
  | 0, _, _, _, _ => .error .fuelOut
  | fuel + 1, p, base, current, entries =>
    let t0 := p.peekTok 0
    let step :=
      if t0.kind == "INDENT" then
        let ind := getIndent t0
        if ind < base then Option.none
        else if ind > base && !entries.isEmpty then Option.none
        else some (p.adv, ind)
      else some (p, current)
    match step with
    | Option.none => .ok (entries, p)
    | some (p1, current1) =>
      let t := p1.peekTok 0
      if !(t.kind == "IDENT" || t.kind == "STRING") then .ok (entries, p1)
      else if (p1.peekTok 1).kind != "COLON" then .ok (entries, p1)
      else
        let keyTok := t
        match parseKey p1 with
        | .error e => .error e
        | .ok (key, p2) =>
          let colon := p2.peekTok 0
          match expectTok p2 "COLON" with
          | .error e => .error e
          | .ok (_, p3) =>
            let spaceChk : Except Err Unit :=
              if keyTok.kind == "IDENT" then checkNoSpaceBefore p3 colon ":"
              else
                let prevCol := colon.col - 1
                if prevCol ≥ 1 && p3.charAt colon.line prevCol == some ' ' then
                  .error (synErr "Unexpected space before \":\"" colon.line prevCol)
                else .ok ()
            match spaceChk with
            | .error e => .error e
            | .ok () =>
              let nt := p3.peekTok 0
              let afterChk : Except Err Unit :=
                if nt.kind != "NEWLINE" then
                  let nextCol := colon.col + 1
                  if p3.charAt colon.line nextCol != some ' ' then
                    .error (synErr "Expected space after \":\"" colon.line nextCol)
                  else if p3.charAt colon.line (nextCol + 1) == some ' ' then
                    .error (synErr "Unexpected space after \":\"" colon.line (nextCol + 1))
                  else .ok ()
                else .ok ()
              match afterChk with
              | .error e => .error e
              | .ok () =>
                match parseObjectValue fuel p3 current1 with
                | .error e => .error e
                | .ok (v, p4) =>
                  let entries2 := dictInsert entries key v
                  let p5 := if (p4.peekTok 0).kind == "NEWLINE" then p4.adv else p4
                  parseBlockObjectLoop fuel p5 base current1 entries2

/-- `Parser.parse_object_value` (parser.py lines 590-701). -/
def parseObjectValue : Nat → ParserSt → Int → Except Err (Value × ParserSt)
  | 0, _, _ => .error .fuelOut
  | fuel + 1, p, keyIndent =>
    let t := p.peekTok 0
    if t.kind == "LBRACE" then
      let nt := p.peekTok 1
      if nt.kind == "RBRACE" then
        if nt.col != t.col + 1 then
          .error (synErr "Unexpected space after \"\x7b\"" t.line (t.col + 1))
        else .ok (.obj [], p.adv.adv)
      else parseInlineObject fuel p
    else if t.kind == "NULL" || t.kind == "BOOL" || t.kind == "INT" || t.kind == "FLOAT" then
      parseInlineValue fuel p
    else if t.kind == "STRING" then
      let lineContent := if t.line ≤ p.srcLines.length then (p.srcLines.get? (t.line - 1)).getD [] else []
      let leaderChk : Except Err Unit :=
        if t.col ≤ lineContent.length then
          let charAtTok := if t.col > 0 then (lineContent.get? (t.col - 1)).getD ' ' else ' '
          if charAtTok == '\x60' then
            let restOfLine := lineContent.drop t.col
            if restOfLine.head? == some ' ' && (pyStrip restOfLine).length > 0 then
              .error (synErr "Expected newline after block leader in property" t.line t.col)
            else .ok ()
          else .ok ()
        else .ok ()
      match leaderChk with
      | .error e => .error e
      | .ok () => parseInlineValue fuel p
    else if t.kind == "BYTES" then
      let lineContent := if t.line ≤ p.srcLines.length then (p.srcLines.get? (t.line - 1)).getD [] else []
      let leaderChk : Except Err Unit :=
        if t.col ≤ lineContent.length then
          let charAtTok := if t.col > 0 then (lineContent.get? (t.col - 1)).getD ' ' else ' '
          if charAtTok == '>' then
            let rest0 := lineContent.drop t.col
            let rest1 := if rest0.head? == some ' ' then rest0.drop 1 else rest0
            match rest1.head? with
            | some h => if isLowerHex h then
                .error (synErr "Expected newline after block leader in property" t.line t.col)
              else .ok ()
            | Option.none => .ok ()
          else .ok ()
        else .ok ()
      match leaderChk with
      | .error e => .error e
      | .ok () => parseInlineValue fuel p
    else if t.kind == "LBRACKET" then parseInlineArray fuel p
    else if t.kind == "NEWLINE" then
      let p1 := p.adv
      let it := p1.peekTok 0
      if it.kind != "INDENT" then
        .error (synErr "Expected value after property" it.line it.col)
      else
        let child := getIndent it
        if child < keyIndent then
          .error (synErr "Expected indentation for nested value" it.line it.col)
        else
          let p2 := p1.adv
          let nt := p2.peekTok 0
          if nt.kind == "DASH" then parseBlockArray fuel p2 child
          else if (nt.kind == "IDENT" || nt.kind == "STRING") && (p2.peekTok 1).kind == "COLON" then
            parseBlockObject fuel p2 child
          else if nt.kind == "STRING" then
            match parseConcatStrings fuel p2 child with
            | .error e => .error e
            | .ok (some s, p3) => .ok (.str s, p3)
            | .ok (Option.none, p3) =>
              let cur := p3.peekTok 0
              .error (synErr "Unexpected indent" cur.line cur.col)
          else
            let cur := p2.peekTok 0
            .error (synErr "Unexpected indent" cur.line cur.col)
    else .error (synErr ("Expected value after colon, got " ++ t.kind) t.line t.col)

/-- `Parser.parse_concatenated_strings` (parser.py lines 703-735). -/
def parseConcatStrings : Nat → ParserSt → Int → Except Err (Option String × ParserSt)
  | 0, _, _ => .error .fuelOut
  | fuel + 1, p, base =>
    match parseConcatLoop fuel p base [] with
    | .error e => .error e
    | .ok (parts, p1) =>
      if parts.length < 2 then .ok (Option.none, p1)
      else .ok (some (String.join parts), p1)

/-- Collection loop of `Parser.parse_concatenated_strings` (parser.py lines 710-728). -/
def parseConcatLoop : Nat → ParserSt → Int → List String → Except Err (List String × ParserSt)
  | 0, _, _, _ => .error .fuelOut
  | fuel + 1, p, base, parts =>
    let t0 := p.peekTok 0
    let step :=
      if t0.kind == "NEWLINE" then
        let p1 := p.adv
        if (p1.peekTok 0).kind != "INDENT" then Option.none
        else if getIndent (p1.peekTok 0) < base then Option.none
        else some p1.adv
      else some p
    match step with
    | Option.none =>
      .ok (parts, if t0.kind == "NEWLINE" then p.adv else p)
    | some p1 =>
      let t := p1.peekTok 0
      if t.kind != "STRING" then .ok (parts, p1)
      else parseConcatLoop fuel p1.adv base (parts ++ [tokStr t])

end

/-- `Parser.parse` (parser.py lines 200-230). -/
def parseTop (fuel : Nat) (src : List Char) (p0 : ParserSt) : Except Err Value :=
  let hasContent := src.any (fun c => !pyIsSpace c)
  let p1 := skipNewlineToks fuel p0
  let t := p1.peekTok 0
  let step : Except Err ParserSt :=
    if t.kind == "INDENT" then
      if getIndent t > 0 then .error (synErr "Unexpected indent" t.line 1)
      else .ok p1.adv
    else .ok p1
  match step with
  | .error e => .error e
  | .ok p2 =>
    if (p2.peekTok 0).kind == "EOF" then
      if hasContent then .error (synErr "No value found in document" 1 1)
      else .ok .null
    else
      match parseValue fuel p2 0 with
      | .error e => .error e
      | .ok (v, p3) =>
        let p4 := skipNLIndent fuel p3
        let te := p4.peekTok 0
        if te.kind != "EOF" then .error (synErr "Unexpected extra content" te.line te.col)
        else .ok v

/-- `libyay.loads` (parser.py lines 738-742): validate, tokenize, parse.
The fuel budgets strictly dominate every loop of the source (each loop
iteration consumes at least one character or token). -/
def loads (s : String) : Except Err Value :=
  let src := s.data
  match validateSource src with
  | .error e => .error (.syn e)
  | .ok () =>
    match tokenize (4 * src.length + 16) src with
    | .error e => .error e
    | .ok toks =>
      let p : ParserSt := { tokens := toks, pos := 0, srcLines := splitNL src }
      parseTop (4 * toks.length + 16) src p

/-- `dumper._is_simple_key` (dumper.py lines 10-16). -/
def isSimpleKey (k : String) : Bool :=
  match k.data with
  | [] => false
  | c :: _ => (pyIsAlpha c || c == '_') && k.data.all (fun x => pyIsAlnum x || x == '_')

/-- `dumper._needs_double_quote` (dumper.py lines 19-26). -/
def needsDoubleQuote (s : String) : Bool :=
  s.data.any (fun c =>
    c == '\n' || c == '\r' || c == '\t' || c == '\x08' || c == '\x0c' || c == '\\'
    || c.toNat < 0x20)

/-- Per-character escape of `dumper._escape_double_quoted` (dumper.py lines 29-51). -/
def escapeDoubleChar (c : Char) : List Char :=
  if c == '"' then ['\\', '"']
  else if c == '\\' then ['\\', '\\']
  else if c == '\n' then ['\\', 'n']
  else if c == '\r' then ['\\', 'r']
  else if c == '\t' then ['\\', 't']
  else if c == '\x08' then ['\\', 'b']
  else if c == '\x0c' then ['\\', 'f']
  else if c.toNat < 0x20 then '\\' :: 'u' :: (hex4Lower c.toNat).data
  else [c]

/-- `dumper._escape_double_quoted`. -/
def escapeDoubleQuoted (s : String) : String :=
  String.mk (s.data.map escapeDoubleChar).flatten

/-- `dumper._escape_single_quoted` (dumper.py lines 54-56). -/
def escapeSingleQuoted (s : String) : String :=
  String.mk (s.data.map (fun c => if c == '\x27' then ['\x27', '\x27'] else [c])).flatten

/-- `bytes.hex()`: lowercase hex, two digits per byte. -/
def bytesHex (bs : List Nat) : String :=
  String.mk (bs.map (fun b => [hexDigitLower (b / 16 % 16), hexDigitLower (b % 16)])).flatten

/-- String case of `dumper._format_value` (dumper.py lines 84-91). -/
def formatStr (s : String) : String :=
  if needsDoubleQuote s then "\"" ++ escapeDoubleQuoted s ++ "\""
  else if s.contains '\x27' && !s.contains '"' then "\"" ++ s ++ "\""
  else "\x27" ++ escapeSingleQuoted s ++ "\x27"

/-- Python `repr` of a finite float.  Modelled from the spec: the spec calls
for the "shortest round-trip decimal"; the embedding keeps float numerals
symbolic, so the original literal text stands in.  No theorem below depends
on the rendering of finite floats. -/
def floatRepr : FloatVal → String
  | .lit s => s
  | .inf => "inf"
  | .negInf => "-inf"
  | .nan => "nan"

/-- Object key rendering of `dumper._format_value` (dumper.py lines 127 and 135). -/
def keyRepr (k : String) : String :=
  if isSimpleKey k then k else "\x27" ++ escapeSingleQuoted k ++ "\x27"

mutual

/-- `dumper._format_value` (dumper.py lines 59-153).  All seven value
variants are serializable, so no failure case remains. -/
def formatValue : Value → Nat → Bool → String
  | .null, _, _ => "null"
  | .bool b, _, _ => if b then "true" else "false"
  | .int n, _, _ => toString n
  | .float f, _, _ =>
    match f with
    | .nan => "nan"
    | .inf => "infinity"
    | .negInf => "-infinity"
    | .lit s =>
      let r := floatRepr (.lit s)
      if !r.contains '.' && !r.contains 'e' && !r.contains 'E' then r ++ ".0" else r
  | .str s, _, _ => formatStr s
  | .bytes bs, _, _ => "<" ++ bytesHex bs ++ ">"
  | .arr items, ind, inl =>
    if inl || items.isEmpty then
      "[" ++ String.intercalate ", " (formatInlineList items) ++ "]"
    else
      String.intercalate "\n" (formatArrItems items ind (String.mk (List.replicate (2 * ind) ' ')))
  | .obj es, ind, inl =>
    if inl || es.isEmpty then
      "\x7b" ++ String.intercalate ", " (formatInlineEntries es) ++ "\x7d"
    else
      String.intercalate "\n" (formatObjEntries es ind (String.mk (List.replicate (2 * ind) ' ')))

/-- Inline array items (dumper.py line 99). -/
def formatInlineList : List Value → List String
  | [] => []
  | v :: t => formatValue v 0 true :: formatInlineList t

/-- Inline object entries (dumper.py lines 125-129). -/
def formatInlineEntries : List (String × Value) → List String
  | [] => []
  | (k, v) :: t => (keyRepr k ++ ": " ++ formatValue v 0 true) :: formatInlineEntries t

/-- Block array lines (dumper.py lines 103-120): nonempty nested objects
become a bare dash line followed by the object lines indented two more
spaces; nested arrays are rendered inline after the dash. -/
def formatArrItems : List Value → Nat → String → List String
  | [], _, _ => []
  | item :: rest, ind, pre =>
    let lines :=
      match item with
      | .obj es =>
        if !es.isEmpty then
          let itemStr := formatValue (.obj es) (ind + 1) false
          (pre ++ "-") :: ((splitNL itemStr.data).filterMap (fun l =>
            if !(pyStrip l).isEmpty then some (pre ++ "  " ++ String.mk l) else Option.none))
        else [pre ++ "- " ++ formatValue (.obj es) 0 true]
      | .arr its =>
        [pre ++ "- " ++ formatValue (.arr its) 0 true]
      | v => [pre ++ "- " ++ formatValue v 0 true]
    lines ++ formatArrItems rest ind pre

/-- Block object lines (dumper.py lines 133-151). -/
def formatObjEntries : List (String × Value) → Nat → String → List String
  | [], _, _ => []
  | (k, v) :: rest, ind, pre =>
    let keyStr := keyRepr k
    let lines :=
      match v with
      | .obj es =>
        if !es.isEmpty then
          [pre ++ keyStr ++ ":", formatValue (.obj es) (ind + 1) false]
        else [pre ++ keyStr ++ ": " ++ formatValue (.obj es) 0 true]
      | .arr its =>
        if !its.isEmpty then
          [pre ++ keyStr ++ ":", formatValue (.arr its) (ind + 1) false]
        else [pre ++ keyStr ++ ": " ++ formatValue (.arr its) 0 true]
      | w => [pre ++ keyStr ++ ": " ++ formatValue w 0 true]
    lines ++ formatObjEntries rest ind pre

end

/-- `libyay.dumps` (dumper.py lines 156-168): block form when `indent` is
true, inline form otherwise. -/
def dumps (v : Value) (indent : Bool) : String := formatValue v 0 (!indent)

set_option maxHeartbeats 3200000

/-- C1: the spec requires `parse(emit(v, indent=true))` to succeed and
return `v` for every value, in particular for an object nested inside a
block array.  The code breaks this: the emitter renders such an object as a
bare dash line, which the parser rejects with `Expected space after "-"`
at line 1, column 2, so the round-trip of `[ {a: 1} ]` fails. -/
theorem c1_roundtrip_fails_on_object_in_block_array :
    dumps (.arr [.obj [("a", .int 1)]]) true = "-\n    a: 1" ∧
    loads "-\n    a: 1" = .error (synErr "Expected space after \"-\"" 1 2) :=
  ⟨rfl, rfl⟩

/-- C2 counterexample: parsing the empty document does not fail; it returns
the null value, refuting the claimed "No value found in document" error. -/
theorem c2_empty_doc_returns_null :
    loads "" = .ok .null ∧
    loads "" ≠ .error (synErr "No value found in document" 1 1) := by
  refine ⟨rfl, ?_⟩
  intro h
  rw [show loads "" = .ok .null from rfl] at h
  exact Except.noConfusion h

/-- C2 amended: the empty document parses to null, while a document
consisting only of a comment line fails with "No value found in document"
at 1:1. -/
theorem c2_amended_empty_null_comment_only_errors :
    loads "" = .ok .null ∧
    loads "# comment\n" = .error (synErr "No value found in document" 1 1) :=
  ⟨rfl, rfl⟩

/-- C3 counterexample: `emit` of `{greeting: "hi\n"}` with `indent=true`
does not end with a newline character, refuting the claimed terminating
newline. -/
theorem c3_no_trailing_newline :
    dumps (.obj [("greeting", .str "hi\n")]) true ≠ "greeting: \"hi\\n\"\n" := by
  decide

/-- C3 amended: `emit` of `{greeting: "hi\n"}` with `indent=true` produces
exactly `greeting: "hi\n"` (value double-quoted because of the escape) with
no terminating newline. -/
theorem c3_amended_exact_output :
    dumps (.obj [("greeting", .str "hi\n")]) true = "greeting: \"hi\\n\"" := rfl

/-- C4 counterexample: parsing `[1, 2,3]` does fail with
`Expected space after ","`, but at line 1 column 7 (the character after the
offending comma), not at column 5 as claimed. -/
theorem c4_column_is_seven_not_five :
    loads "[1, 2,3]" = .error (synErr "Expected space after \",\"" 1 7) ∧
    loads "[1, 2,3]" ≠ .error (synErr "Expected space after \",\"" 1 5) := by
  refine ⟨rfl, ?_⟩
  intro h
  rw [show loads "[1, 2,3]" = .error (synErr "Expected space after \",\"" 1 7) from rfl] at h
  injection h with h2
  exact absurd h2 (by decide)

/-- C4 amended: parsing `[1, 2,3]` fails with `Expected space after ","`
at line 1, column 7. -/
theorem c4_amended_error_at_one_seven :
    loads "[1, 2,3]" = .error (synErr "Expected space after \",\"" 1 7) := rfl

/-- C5 counterexample: the BOM check only runs when the input has at least
three characters (lexer.py line 67), so the one-character input consisting
of U+FEFF alone fails with `Unexpected character`, not `Illegal BOM`. -/
theorem c5_short_bom_different_error :
    loads "\uFEFF" = .error (synErr "Unexpected character \"\uFEFF\"" 1 1) ∧
    loads "\uFEFF" ≠ .error (synErr "Illegal BOM" 1 1) := by
  refine ⟨rfl, ?_⟩
  intro h
  rw [show loads "\uFEFF" = .error (synErr "Unexpected character \"\uFEFF\"" 1 1) from rfl] at h
  injection h with h2
  exact absurd h2 (by decide)

/-- C5 amended: for every input text of length at least three whose first
character is U+FEFF, parsing fails with "Illegal BOM" at line 1, column 1. -/
theorem c5_amended_bom_rejected (s : String) (h3 : 3 ≤ s.length)
    (hb : s.data.head? = some (Char.ofNat 0xFEFF)) :
    loads s = .error (synErr "Illegal BOM" 1 1) := by
  have hlen : 3 ≤ s.data.length := h3
  simp only [loads, validateSource]
  rw [hb]
  simp [hlen]
  rw [if_pos h3]
  rfl

/-- C5 witness: the amended theorem applied to a concrete three-character
BOM-prefixed input. -/
theorem c5_witness :
    3 ≤ ("\uFEFFab" : String).length ∧
    ("\uFEFFab" : String).data.head? = some (Char.ofNat 0xFEFF) ∧
    loads "\uFEFFab" = .error (synErr "Illegal BOM" 1 1) :=
  ⟨by decide, by decide, c5_amended_bom_rejected "\uFEFFab" (by decide) (by decide)⟩

/-- `LexSt.adv1` on a non-newline head. -/
lemma adv1_cons {c : Char} {t : List Char} {line col : Nat} {als : Bool} {cli : Nat}
    (h : c ≠ '\n') :
    LexSt.adv1 ⟨c :: t, line, col, als, cli⟩ = ⟨t, line, col + 1, als, cli⟩ := by
  simp [LexSt.adv1, h]

/-- Digit runs joined by single U+0020 characters, the shape of a grouped
numeric literal. -/
def joinRuns : List (List Char) → List Char
  | [] => []
  | [r] => r
  | r :: rs => r ++ ' ' :: joinRuns rs

/-- The number-scanning loop consumes a run of digits, appending them to
the accumulated numeral and clearing the grouping-space flag. -/
lemma numLoop_digits :
    ∀ (ds : List Char) (fuel : Nat) (rest : List Char) (line col : Nat) (als : Bool)
      (cli : Nat) (cs : List Char) (lw0 : Bool) (sc0 : Nat),
      (∀ c ∈ ds, pyIsDigit c = true) →
      numLoop (fuel + ds.length) ⟨ds ++ rest, line, col, als, cli⟩ ⟨cs, false, false, lw0, sc0⟩ =
        numLoop fuel ⟨rest, line, col + ds.length, als, cli⟩
          ⟨cs ++ ds, false, false, (if ds.isEmpty then lw0 else false), sc0⟩ := by
  intro ds
  induction ds with
  | nil =>
    intro fuel rest line col als cli cs lw0 sc0 _
    simp
  | cons d t ih =>
    intro fuel rest line col als cli cs lw0 sc0 hds
    have hd : pyIsDigit d = true := hds d (List.mem_cons_self _ _)
    have hne : d ≠ '\n' := fun hh => by subst hh; exact absurd hd (by decide)
    have hfe : fuel + (d :: t).length = (fuel + t.length) + 1 := by
      simp [List.length_cons]; omega
    rw [hfe]
    have hstep : numLoop ((fuel + t.length) + 1) ⟨(d :: t) ++ rest, line, col, als, cli⟩
          ⟨cs, false, false, lw0, sc0⟩
        = numLoop (fuel + t.length) ⟨t ++ rest, line, col + 1, als, cli⟩
            ⟨cs ++ [d], false, false, false, sc0⟩ := by
      simp only [numLoop, LexSt.peek, List.cons_append, List.get?_cons_zero, hd]
      rw [adv1_cons hne]
      simp
    rw [hstep, ih (fuel) rest line (col + 1) als cli _ _ _
      (fun c hc => hds c (List.mem_cons_of_mem _ hc))]
    have hcol : col + 1 + t.length = col + (t.length + 1) := by omega
    rw [hcol]
    simp [List.append_assoc]

/-- The number-scanning loop consumes a single grouping space when the
next character is a digit, recording the space column. -/
lemma numLoop_space_step (d : Char) (tl : List Char) (fuel line col : Nat)
    (als : Bool) (cli : Nat) (cs : List Char) (lw0 : Bool) (sc0 : Nat)
    (hdd : pyIsDigit d = true) :
    numLoop (fuel + 1) ⟨' ' :: d :: tl, line, col, als, cli⟩ ⟨cs, false, false, lw0, sc0⟩
      = numLoop fuel ⟨d :: tl, line, col + 1, als, cli⟩ ⟨cs, false, false, true, col⟩ := by
  have e1 : pyIsDigit ' ' = false := by decide
  simp only [numLoop, LexSt.peek, List.get?_cons_zero, List.get?_cons_succ, e1, hdd]
  rw [adv1_cons (by decide)]
  simp

/-- The number-scanning loop on a grouped sequence of digit runs consumes
the whole literal and accumulates exactly the digits, the spaces dropped. -/
lemma numLoop_runs :
    ∀ (runs : List (List Char)), runs ≠ [] → (∀ r ∈ runs, r ≠ []) →
      (∀ r ∈ runs, ∀ c ∈ r, pyIsDigit c = true) →
      ∀ (fuel line col : Nat) (als : Bool) (cli : Nat) (cs : List Char) (lw0 : Bool) (sc0 : Nat),
        ∃ sc : Nat,
          numLoop (fuel + (joinRuns runs).length + 1) ⟨joinRuns runs, line, col, als, cli⟩
              ⟨cs, false, false, lw0, sc0⟩ =
            .ok (⟨cs ++ runs.flatten, false, false, false, sc⟩,
                 ⟨[], line, col + (joinRuns runs).length, als, cli⟩) := by
  intro runs
  induction runs with
  | nil => intro h; exact absurd rfl h
  | cons r rest ih =>
    intro _ hne hdig fuel line col als cli cs lw0 sc0
    have hr : r ≠ [] := hne r (List.mem_cons_self _ _)
    have hrd : ∀ c ∈ r, pyIsDigit c = true := hdig r (List.mem_cons_self _ _)
    have hrE : r.isEmpty = false := by
      cases r with
      | nil => exact absurd rfl hr
      | cons x xs => rfl
    cases rest with
    | nil =>
      have hj : joinRuns [r] = r := by simp [joinRuns]
      rw [hj]
      have hf : fuel + r.length + 1 = (fuel + 1) + r.length := by omega
      have hd2 := numLoop_digits r (fuel + 1) [] line col als cli cs lw0 sc0 hrd
      rw [List.append_nil, hrE] at hd2
      rw [hf, hd2]
      refine ⟨sc0, ?_⟩
      simp only [numLoop, LexSt.peek, List.get?]
      simp
    | cons r2 rs =>
      have hr2 : r2 ≠ [] := hne r2 (by simp)
      obtain ⟨d, t2, rfl⟩ : ∃ d t2, r2 = d :: t2 := by
        cases r2 with
        | nil => exact absurd rfl hr2
        | cons x xs => exact ⟨x, xs, rfl⟩
      have hdd : pyIsDigit d = true := hdig (d :: t2) (by simp) d (by simp)
      have hj : joinRuns (r :: (d :: t2) :: rs) = r ++ ' ' :: joinRuns ((d :: t2) :: rs) := by
        simp [joinRuns]
      obtain ⟨tl, htl⟩ : ∃ tl, joinRuns ((d :: t2) :: rs) = d :: tl := by
        cases rs with
        | nil => exact ⟨t2, by simp [joinRuns]⟩
        | cons q qs => exact ⟨t2 ++ ' ' :: joinRuns (q :: qs), by simp [joinRuns]⟩
      rw [hj, htl]
      have hf : fuel + (r ++ ' ' :: d :: tl).length + 1
          = ((fuel + (d :: tl).length + 1) + 1) + r.length := by
        simp; omega
      rw [hf]
      have hd2 := numLoop_digits r ((fuel + (d :: tl).length + 1) + 1)
        (' ' :: d :: tl) line col als cli cs lw0 sc0 hrd
      simp only [hrE, Bool.false_eq_true, if_false] at hd2
      rw [hd2,
        numLoop_space_step d tl (fuel + (d :: tl).length + 1)
          line (col + r.length) als cli (cs ++ r) false sc0 hdd]
      have hih := ih (by simp) (fun q hq => hne q (List.mem_cons_of_mem _ hq))
        (fun q hq => hdig q (List.mem_cons_of_mem _ hq)) fuel line (col + r.length + 1) als cli
        (cs ++ r) true (col + r.length)
      rw [htl] at hih
      obtain ⟨sc, hrec⟩ := hih
      refine ⟨sc, ?_⟩
      rw [hrec]
      simp [List.append_assoc]
      omega

/-- A joined run list starts with the first digit of its first run. -/
lemma joinRuns_cons_head (c0 : Char) (rt : List Char) (rest : List (List Char)) :
    ∃ tl, joinRuns ((c0 :: rt) :: rest) = c0 :: tl := by
  cases rest with
  | nil => exact ⟨rt, by simp [joinRuns]⟩
  | cons q qs => exact ⟨rt ++ ' ' :: joinRuns (q :: qs), by simp [joinRuns]⟩

/-- `int` applied to a nonempty unsigned digit string. -/
lemma pyInt_digits (ds : List Char) (h1 : ds ≠ []) (h2 : ∀ c ∈ ds, pyIsDigit c = true) :
    pyInt (String.mk ds) = some (Int.ofNat (digitsToNat ds)) := by
  cases ds with
  | nil => exact absurd rfl h1
  | cons c t =>
    have hc : pyIsDigit c = true := h2 c (by simp)
    have hcm : c ≠ '-' := fun hh => by subst hh; exact absurd hc (by decide)
    have hall : (c :: t).all pyIsDigit = true := List.all_eq_true.mpr h2
    simp [pyInt, hcm, hall]

/-- `read_number` on a grouped digit literal: the token is INT and its
value is the concatenated digits, so grouping spaces do not affect it. -/
lemma readNumber_runs (runs : List (List Char)) (h0 : runs ≠ [])
    (h1 : ∀ r ∈ runs, r ≠ []) (h2 : ∀ r ∈ runs, ∀ c ∈ r, pyIsDigit c = true)
    (fuel line col : Nat) (als : Bool) (cli : Nat) :
    readNumber (fuel + (joinRuns runs).length + 1) ⟨joinRuns runs, line, col, als, cli⟩
      = .ok (⟨"INT", .int (Int.ofNat (digitsToNat runs.flatten)), line, col⟩,
             ⟨[], line, col + (joinRuns runs).length, als, cli⟩) := by
  obtain ⟨r, rest, rfl⟩ : ∃ r rest, runs = r :: rest := by
    cases runs with
    | nil => exact absurd rfl h0
    | cons r rest => exact ⟨r, rest, rfl⟩
  obtain ⟨c0, rt, rfl⟩ : ∃ c0 rt, r = c0 :: rt := by
    have := h1 _ (List.mem_cons_self _ _)
    cases r with
    | nil => exact absurd rfl this
    | cons c0 rt => exact ⟨c0, rt, rfl⟩
  have hc0 : pyIsDigit c0 = true := h2 _ (List.mem_cons_self _ _) c0 (by simp)
  have hcm : c0 ≠ '-' := fun hh => by subst hh; exact absurd hc0 (by decide)
  obtain ⟨tl, htl⟩ := joinRuns_cons_head c0 rt rest
  have hflat : ((c0 :: rt) :: rest).flatten ≠ [] := by simp
  have hfd : ∀ c ∈ ((c0 :: rt) :: rest).flatten, pyIsDigit c = true := by
    intro c hc
    rw [List.mem_flatten] at hc
    obtain ⟨l, hl, hcl⟩ := hc
    exact h2 l hl c hcl
  obtain ⟨sc, hloop⟩ := numLoop_runs ((c0 :: rt) :: rest) h0 h1 h2 fuel line col als cli [] false 0
  simp only [readNumber]
  rw [htl]
  have hpk : (LexSt.peek ⟨c0 :: tl, line, col, als, cli⟩ 0 == some '-') = false := by
    simp [LexSt.peek, hcm]
  rw [hpk]
  simp only [Bool.false_eq_true, if_false]
  rw [htl] at hloop
  rw [hloop]
  simp only [Bool.or_self, Bool.false_eq_true, if_false]
  rw [List.nil_append, pyInt_digits _ hflat hfd]

/-- C7: a numeric literal may contain single U+0020 characters between
digit runs, each space surrounded by digits; the grouping spaces do not
affect the numeric value, which is the concatenated digits.  In
particular, `1 000 000` parses to the integer 1000000. -/
theorem c7_digit_grouping :
    (∀ (runs : List (List Char)), runs ≠ [] → (∀ r ∈ runs, r ≠ []) →
      (∀ r ∈ runs, ∀ c ∈ r, pyIsDigit c = true) →
      ∀ (fuel line col : Nat) (als : Bool) (cli : Nat),
        readNumber (fuel + (joinRuns runs).length + 1) ⟨joinRuns runs, line, col, als, cli⟩
          = .ok (⟨"INT", .int (Int.ofNat (digitsToNat runs.flatten)), line, col⟩,
                 ⟨[], line, col + (joinRuns runs).length, als, cli⟩)) ∧
    loads "1 000 000" = .ok (.int 1000000) :=
  ⟨fun runs h0 h1 h2 fuel line col als cli =>
    readNumber_runs runs h0 h1 h2 fuel line col als cli, rfl⟩

/-- C7 witness: the grouping theorem applied to the runs of `1 000 000`. -/
theorem c7_grouping_witness :
    readNumber 10 ⟨['1', ' ', '0', '0', '0', ' ', '0', '0', '0'], 1, 1, false, 0⟩
      = .ok (⟨"INT", .int 1000000, 1, 1⟩, ⟨[], 1, 10, false, 0⟩) :=
  c7_digit_grouping.1 [['1'], ['0', '0', '0'], ['0', '0', '0']]
    (by decide) (by decide) (by decide) 0 1 1 false 0

/-- C6: the claim (and the spec error model) requires every parse failure
to be the positioned syntax-error kind.  On `<dz>` the inline byte-array
reader instead evaluates the undefined local `block_mode` (lexer.py line
619), so the failure is a Python NameError, not a YaySyntaxError. -/
theorem c6_block_mode_name_error :
    loads "<dz>" = .error (.nameError "block_mode") ∧
    ∀ e : YayErr, loads "<dz>" ≠ .error (.syn e) := by
  refine ⟨rfl, ?_⟩
  intro e h
  rw [show loads "<dz>" = .error (.nameError "block_mode") from rfl] at h
  injection h with h2
  exact Err.noConfusion h2

/-- C8: parse and emit are deterministic pure functions of their inputs:
equal input texts parse to equal results (values or errors alike), and
structurally equal values emit to identical strings under the same indent
flag.  In this embedding both are total functions, so determinism is
congruence. -/
theorem c8_parse_emit_deterministic :
    (∀ s t : String, s = t → loads s = loads t) ∧
    (∀ v w : Value, ∀ ind : Bool, v = w → dumps v ind = dumps w ind) :=
  ⟨fun _ _ h => by rw [h], fun _ _ _ h => by rw [h]⟩

/-- C8 witness: the determinism theorem applied at concrete inputs. -/
theorem c8_witness :
    loads "42" = loads "42" ∧ dumps .null true = dumps .null true :=
  ⟨c8_parse_emit_deterministic.1 "42" "42" rfl,
   c8_parse_emit_deterministic.2 .null .null true rfl⟩

/-- The inline byte-array loop consumes one space, recording its column. -/
lemma bytesLoop_space_step (rest : List Char) (fuel line col : Nat) (als : Bool) (cli : Nat)
    (acc : List Char) (lws : Bool) (sc : Nat) (mb : Bool) (sl scol : Nat) :
    bytesLoop (fuel + 1) ⟨' ' :: rest, line, col, als, cli⟩ acc lws sc mb sl scol
      = bytesLoop fuel ⟨rest, line, col + 1, als, cli⟩ acc true col mb sl scol := by
  have e1 : (' ' == '>') = false := by decide
  have e2 : (' ' == ' ') = true := by decide
  simp only [bytesLoop, LexSt.peek, List.get?_cons_zero, e1, e2, Bool.false_eq_true,
    if_false, if_true]
  rw [adv1_cons (by decide)]

/-- The inline byte-array loop consumes any positive run of spaces. -/
lemma bytesLoop_spaces :
    ∀ (m fuel : Nat) (rest : List Char) (line col : Nat) (als : Bool) (cli : Nat)
      (acc : List Char) (lws : Bool) (sc : Nat) (mb : Bool) (sl scol : Nat),
      bytesLoop (fuel + (m + 1)) ⟨List.replicate (m + 1) ' ' ++ rest, line, col, als, cli⟩
          acc lws sc mb sl scol
        = bytesLoop fuel ⟨rest, line, col + (m + 1), als, cli⟩ acc true (col + m) mb sl scol := by
  intro m
  induction m with
  | zero =>
    intro fuel rest line col als cli acc lws sc mb sl scol
    simpa using bytesLoop_space_step rest fuel line col als cli acc lws sc mb sl scol
  | succ m ih =>
    intro fuel rest line col als cli acc lws sc mb sl scol
    have h1 : fuel + (m + 1 + 1) = (fuel + (m + 1)) + 1 := by omega
    have h2 : List.replicate (m + 1 + 1) ' ' ++ rest
        = ' ' :: (List.replicate (m + 1) ' ' ++ rest) := by
      simp [List.replicate_succ]
    have h3 : col + 1 + (m + 1) = col + (m + 1 + 1) := by omega
    have h4 : col + 1 + m = col + (m + 1) := by omega
    rw [h1, h2, bytesLoop_space_step, ih, h3, h4]

/-- The inline byte-array loop consumes a lowercase hex digit. -/
lemma bytesLoop_hex_step (c : Char) (rest : List Char) (fuel line col : Nat) (als : Bool)
    (cli : Nat) (acc : List Char) (lws : Bool) (sc : Nat) (mb : Bool) (sl scol : Nat)
    (h1 : isLowerHex c = true) (h2 : (c == '>') = false) (h3 : (c == ' ') = false)
    (h4 : (c == '\n') = false) (h5 : (c == '#') = false) (h6 : c ≠ '\n') :
    bytesLoop (fuel + 1) ⟨c :: rest, line, col, als, cli⟩ acc lws sc mb sl scol
      = bytesLoop fuel ⟨rest, line, col + 1, als, cli⟩ (acc ++ [c]) false sc mb sl scol := by
  simp only [bytesLoop, LexSt.peek, List.get?_cons_zero, h1, h2, h3, h4, h5,
    Bool.false_eq_true, if_false, if_true]
  rw [adv1_cons h6]

/-- The inline byte-array loop accepts the closer when the previous
character was not a space. -/
lemma bytesLoop_close (rest : List Char) (fuel line col : Nat) (als : Bool) (cli : Nat)
    (acc : List Char) (sc : Nat) (mb : Bool) (sl scol : Nat) :
    bytesLoop (fuel + 1) ⟨'>' :: rest, line, col, als, cli⟩ acc false sc mb sl scol
      = .ok (acc, ⟨rest, line, col + 1, als, cli⟩) := by
  have e1 : ('>' == '>') = true := by decide
  simp only [bytesLoop, LexSt.peek, List.get?_cons_zero, e1, Bool.false_eq_true,
    if_false, if_true]
  rw [adv1_cons (by decide)]

/-- C10: any positive number of spaces directly after the opening `<` of an
inline byte array is accepted (shown in general for `<  …  de>` bodies via
`read_bytes`, and concretely `< de>` parses to the single byte 0xde), while
a space immediately before the closing `>` is the error
`Unexpected space before ">"`. -/
theorem c10_spaces_after_open_angle :
    (∀ (m fuel line col : Nat) (als : Bool) (cli : Nat) (rest : List Char),
      readBytes (fuel + m + 5) ⟨List.replicate (m + 1) ' ' ++ 'd' :: 'e' :: '>' :: rest,
          line, col, als, cli⟩ true false
        = .ok (⟨"BYTES", .bytes [0xde], line, col⟩, ⟨rest, line, col + m + 4, als, cli⟩)) ∧
    loads "< de>" = .ok (.bytes [0xde]) ∧
    loads "<de >" = .error (synErr "Unexpected space before \">\"" 1 4) := by
  refine ⟨?_, rfl, rfl⟩
  intro m fuel line col als cli rest
  simp only [readBytes, if_true]
  have h1 : fuel + m + 5 = (fuel + 4) + (m + 1) := by omega
  rw [h1, bytesLoop_spaces m (fuel + 4) ('d' :: 'e' :: '>' :: rest) line col als cli
    [] false 0 false line col]
  have h2 : fuel + 4 = (fuel + 3) + 1 := by omega
  rw [h2, bytesLoop_hex_step 'd' _ _ _ _ _ _ _ _ _ _ _ _
    (by decide) (by decide) (by decide) (by decide) (by decide) (by decide)]
  have h3 : fuel + 3 = (fuel + 2) + 1 := by omega
  rw [h3, bytesLoop_hex_step 'e' _ _ _ _ _ _ _ _ _ _ _ _
    (by decide) (by decide) (by decide) (by decide) (by decide) (by decide)]
  have h4 : fuel + 2 = (fuel + 1) + 1 := by omega
  rw [h4, bytesLoop_close]
  have h5 : col + (m + 1) + 1 + 1 + 1 = col + m + 4 := by omega
  rw [h5]
  rfl

/-- C9: a repeated key is not an error; the object maps the key to the
value of its last occurrence.  Shown on an inline and a block object, and
in general: after the dict insertion the parser performs for each
`key: value` pair, the key looks up to the newest value. -/
theorem c9_duplicate_keys_last_wins :
    loads "\x7ba: 1, a: 2\x7d" = .ok (.obj [("a", .int 2)]) ∧
    loads "a: 1\na: 2\n" = .ok (.obj [("a", .int 2)]) ∧
    ∀ (m : List (String × Value)) (k : String) (v : Value),
      dictLookup (dictInsert m k v) k = some v := by
  refine ⟨rfl, rfl, ?_⟩
  intro m k v
  induction m with
  | nil => simp [dictInsert, dictLookup]
  | cons kv t ih =>
    obtain ⟨k0, v0⟩ := kv
    by_cases hk : k0 = k
    · simp [dictInsert, dictLookup, hk]
    · simp [dictInsert, dictLookup, hk, ih]

end Yay
